/-
Verification of the hytale-launcher update engine against its specification.

The Go sources are shallowly embedded: pure functions become Lean functions,
machine integers become Nat/Int with explicit `% 2^32` where overflow matters,
Go maps become association lists with Go's lookup/insert/delete semantics,
fallible operations return Option/Except, and I/O collaborators (HTTP fetches,
the keyring, the filesystem) are modelled as explicit inputs or as a small
filesystem value threaded through the functions that touch it.
-/
import Mathlib

/-! ## internal/crypto: HMAC-SHA256 hex (crypto/hmac.go)

`crypto.HMAC(data, key)` in the source is HMAC-SHA256 returning a lowercase
hex string.  SHA-256 is embedded concretely over byte lists (bytes are Nat,
words are Nat reduced `% 4294967296`). -/

namespace crypto

def rotr32 (x n : Nat) : Nat := ((x >>> n) ||| (x <<< (32 - n))) % 4294967296

def sSig0 (x : Nat) : Nat := (rotr32 x 7) ^^^ (rotr32 x 18) ^^^ (x >>> 3)

def sSig1 (x : Nat) : Nat := (rotr32 x 17) ^^^ (rotr32 x 19) ^^^ (x >>> 10)

def bSig0 (x : Nat) : Nat := (rotr32 x 2) ^^^ (rotr32 x 13) ^^^ (rotr32 x 22)

def bSig1 (x : Nat) : Nat := (rotr32 x 6) ^^^ (rotr32 x 11) ^^^ (rotr32 x 25)

def sha256K : List Nat :=
  [1116352408, 1899447441, 3049323471, 3921009573, 961987163, 1508970993,
   2453635748, 2870763221, 3624381080, 310598401, 607225278, 1426881987,
   1925078388, 2162078206, 2614888103, 3248222580, 3835390401, 4022224774,
   264347078, 604807628, 770255983, 1249150122, 1555081692, 1996064986,
   2554220882, 2821834349, 2952996808, 3210313671, 3336571891, 3584528711,
   113926993, 338241895, 666307205, 773529912, 1294757372, 1396182291,
   1695183700, 1986661051, 2177026350, 2456956037, 2730485921, 2820302411,
   3259730800, 3345764771, 3516065817, 3600352804, 4094571909, 275423344,
   430227734, 506948616, 659060556, 883997877, 958139571, 1322822218,
   1537002063, 1747873779, 1955562222, 2024104815, 2227730452, 2361852424,
   2428436474, 2756734187, 3204031479, 3329325298]

structure Hash8 where
  a : Nat
  b : Nat
  c : Nat
  d : Nat
  e : Nat
  f : Nat
  g : Nat
  h : Nat
deriving DecidableEq, Repr

def sha256H0 : Hash8 :=
  ⟨1779033703, 3144134277, 1013904242, 2773480762, 1359893119, 2600822924, 528734635, 1541459225⟩

/-- Extend the 16 message words to 64; `acc` holds the most recent word first. -/
def extendSchedule : List Nat → Nat → List Nat
  | acc, 0 => acc
  | acc, n + 1 =>
    let w2 := acc.getD 1 0
    let w7 := acc.getD 6 0
    let w15 := acc.getD 14 0
    let w16 := acc.getD 15 0
    let w := (sSig1 w2 + w7 + sSig0 w15 + w16) % 4294967296
    extendSchedule (w :: acc) n

def msgSchedule (block : List Nat) : List Nat :=
  (extendSchedule block.reverse 48).reverse

def compressRound (s : Hash8) (k w : Nat) : Hash8 :=
  let ch := (s.e &&& s.f) ^^^ ((s.e ^^^ 4294967295) &&& s.g)
  let t1 := (s.h + bSig1 s.e + ch + k + w) % 4294967296
  let maj := (s.a &&& s.b) ^^^ (s.a &&& s.c) ^^^ (s.b &&& s.c)
  let t2 := (bSig0 s.a + maj) % 4294967296
  ⟨(t1 + t2) % 4294967296, s.a, s.b, s.c, (s.d + t1) % 4294967296, s.e, s.f, s.g⟩

def compressBlock (h0 : Hash8) (block : List Nat) : Hash8 :=
  let ws := msgSchedule block
  let s := (sha256K.zip ws).foldl (fun s kw => compressRound s kw.1 kw.2) h0
  ⟨(h0.a + s.a) % 4294967296, (h0.b + s.b) % 4294967296, (h0.c + s.c) % 4294967296,
   (h0.d + s.d) % 4294967296, (h0.e + s.e) % 4294967296, (h0.f + s.f) % 4294967296,
   (h0.g + s.g) % 4294967296, (h0.h + s.h) % 4294967296⟩

/-- Big-endian byte expansion of `n` over `w` bytes. -/
def beBytes (w n : Nat) : List Nat :=
  (List.range w).map (fun i => (n >>> (8 * (w - 1 - i))) % 256)

def padMessage (msg : List Nat) : List Nat :=
  let len := msg.length
  let zeros := (119 - len % 64) % 64
  msg ++ [128] ++ List.replicate zeros 0 ++ beBytes 8 (len * 8)

def bytesToWords : List Nat → List Nat
  | b0 :: b1 :: b2 :: b3 :: rest =>
    ((b0 <<< 24) + (b1 <<< 16) + (b2 <<< 8) + b3) :: bytesToWords rest
  | _ => []

def chunk16 : Nat → List Nat → List (List Nat)
  | 0, _ => []
  | _, [] => []
  | n + 1, ws => ws.take 16 :: chunk16 n (ws.drop 16)

/-- SHA-256 digest (32 bytes) of a byte list. -/
def sha256 (msg : List Nat) : List Nat :=
  let ws := bytesToWords (padMessage msg)
  let final := (chunk16 ws.length ws).foldl compressBlock sha256H0
  ([final.a, final.b, final.c, final.d, final.e, final.f, final.g, final.h].map (beBytes 4)).flatten

def hexDigit (n : Nat) : Char := if n < 10 then Char.ofNat (48 + n) else Char.ofNat (87 + n)

/-- Lowercase hex encoding, as Go's `hex.EncodeToString`. -/
def bytesToHex (bs : List Nat) : String :=
  String.mk (bs.flatMap (fun b => [hexDigit (b / 16), hexDigit (b % 16)]))

def hmacSha256 (data key : List Nat) : List Nat :=
  let k0 := if key.length > 64 then sha256 key else key
  let kpad := k0 ++ List.replicate (64 - k0.length) 0
  let ipad := kpad.map (fun b => b ^^^ 54)
  let opad := kpad.map (fun b => b ^^^ 92)
  sha256 (opad ++ sha256 (ipad ++ data))

/-- `crypto.HMAC` from internal/crypto/hmac.go: HMAC-SHA256 as a hex string. -/
def HMAC (data key : List Nat) : String := bytesToHex (hmacSha256 data key)

end crypto

/-! ## Byte view of Go strings

Go's `[]byte(s)` conversion yields the UTF-8 encoding of `s`. -/

def charUtf8 (c : Char) : List Nat :=
  let n := c.toNat
  if n < 128 then [n]
  else if n < 2048 then [192 + n / 64, 128 + n % 64]
  else if n < 65536 then [224 + n / 4096, 128 + (n / 64) % 64, 128 + n % 64]
  else [240 + n / 262144, 128 + (n / 4096) % 64, 128 + (n / 64) % 64, 128 + n % 64]

def utf8Bytes (s : String) : List Nat := s.data.flatMap charUtf8

/-! ## Association lists with Go map semantics

Go maps are embedded as association lists with unique keys:
lookup, update-or-insert, and delete. -/

def alookup {α : Type} : List (String × α) → String → Option α
  | [], _ => none
  | (k0, v0) :: rest, k => if k0 = k then some v0 else alookup rest k

def ainsert {α : Type} : List (String × α) → String → α → List (String × α)
  | [], k, v => [(k, v)]
  | (k0, v0) :: rest, k, v =>
    if k0 = k then (k, v) :: rest else (k0, v0) :: ainsert rest k v

def aerase {α : Type} : List (String × α) → String → List (String × α)
  | [], _ => []
  | (k0, v0) :: rest, k => if k0 = k then rest else (k0, v0) :: aerase rest k

/-! ## internal/appstate (src/unnamed/part_001): channel state store -/

namespace appstate

structure Dep where
  Version : String
  Build : Int
  BuildID : Int
  Hash : String
  Path : String
  SigDir : String
  SigFile : String
deriving DecidableEq, Repr

structure State where
  Channel : String
  IsNew : Bool
  OfflineReady : Bool
  DataDir : String
  Dependencies : List (String × List (String × Dep))
deriving DecidableEq, Repr

/-- `State.getDeps` / `GetDeps`: the inner map for `identifier`
(`none` models Go's nil map). -/
def State.GetDeps (s : State) (identifier : String) : Option (List (String × Dep)) :=
  alookup s.Dependencies identifier

/-- `State.SetDependency` (part_001 lines 77-99): with `none` it deletes the
outer entry; with `some dep` it looks up the inner map (creating an empty one
when absent) and stores `dep` keyed by `dep.Version`.  `cause` is only
logged. -/
def State.SetDependency (s : State) (identifier : String) (cause : String)
    (dep : Option Dep) : State :=
  match dep with
  | none => { s with Dependencies := aerase s.Dependencies identifier }
  | some d =>
    let deps := (alookup s.Dependencies identifier).getD []
    { s with Dependencies := ainsert s.Dependencies identifier (ainsert deps d.Version d) }

/-- `State.AddDependency` (part_001 lines 101-117). -/
def State.AddDependency (s : State) (identifier : String) (dep : Dep) : State :=
  let deps := (alookup s.Dependencies identifier).getD []
  { s with Dependencies := ainsert s.Dependencies identifier (ainsert deps dep.Version dep) }

/-- `State.RemoveDependency` (part_001 lines 140-158): removes one inner
entry; when the inner map becomes empty the outer entry is removed too. -/
def State.RemoveDependency (s : State) (identifier : String) (version : String) : State :=
  match alookup s.Dependencies identifier with
  | none => s
  | some deps =>
    let rest := aerase deps version
    if rest.length = 0 then
      { s with Dependencies := aerase s.Dependencies identifier }
    else
      { s with Dependencies := ainsert s.Dependencies identifier rest }

/-- Inner dependency map for a package id, defaulting to empty. -/
def innerDeps (s : State) (identifier : String) : List (String × Dep) :=
  (alookup s.Dependencies identifier).getD []

end appstate

/-! ## internal/pkg launcher self-update (src/unnamed/part_005) and the
self-update helper (src/unnamed/part_003, package selfupdate) -/

namespace pkg

/-- The signature `launcherUpdate.selfUpdate` computes (part_005 line 162):
`crypto.HMAC([]byte(pidStr), key)` where `pidStr` is the decimal rendering of
the current process id. -/
def selfUpdateSig (key : List Nat) (pid : Nat) : String :=
  crypto.HMAC (utf8Bytes (toString pid)) key

/-- The argv `launcherUpdate.selfUpdate` passes to the spawned helper
(part_005 lines 165-172). -/
def selfUpdateArgs (key : List Nat) (pid : Nat)
    (newBinaryPath currentExe channel targetVersion : String) : List String :=
  ["-start-pid", toString pid,
   "-source-exe", newBinaryPath,
   "-dest-exe", currentExe,
   "-launcher-patchline", channel,
   "-launcher-version", targetVersion,
   "-sig", selfUpdateSig key pid]

end pkg

/-- Go's `strings.HasPrefix s pre`: `pre` is a leading substring of `s`. -/
def strHasPre (s pre : String) : Bool := pre.data.isPrefixOf s.data

namespace selfupdate

/-- `selfupdate.validate` (part_003 lines 228-247): recomputes
`crypto.HMAC([]byte(TargetBin), key)` and compares it with `UpdateSignature`;
then requires both `SourceBin` and `TargetBin` to have the literal string
prefix `/tmp` (`strings.HasPrefix`).  Returns `none` on success and the error
message otherwise. -/
def validate (key : List Nat) (SourceBin TargetBin UpdateSignature : String) :
    Option String :=
  if crypto.HMAC (utf8Bytes TargetBin) key ≠ UpdateSignature then
    some "invalid update signature"
  else if strHasPre SourceBin "/tmp" && strHasPre TargetBin "/tmp" then
    none
  else
    some "invalid update executables"

end selfupdate

/-! ## internal/pkg/game.go: the commit tail of `gameUpdate.Apply`

The filesystem is modelled as an association list from paths to byte
contents.  `os.Remove` ignoring `IsNotExist` removes the entry when present;
`os.Rename` fails when the source does not exist. -/

namespace pkg

abbrev FS : Type := List (String × List Nat)

def fsRemove (fs : FS) (path : String) : FS :=
  List.filter (fun e => e.1 ≠ path) fs

def fsRename (fs : FS) (src dst : String) : Except String FS :=
  match alookup fs src with
  | none => Except.error "rename: no such file or directory"
  | some content => Except.ok (ainsert (fsRemove fs src) dst content)

/-- `gamePatch` (game.go lines 48-60); `patchPath`/`sigPath` are filled in by
the download phase. -/
structure GamePatch where
  FromBuild : Int
  ToBuild : Int
  PatchURL : String
  PatchSize : Int
  SignatureURL : String
  SigSize : Int
  patchPath : String
  sigPath : String
deriving DecidableEq, Repr

/-- The data of `gameUpdate` that the commit phase reads. -/
structure GameUpdateData where
  gameDir : String
  Version : String
  TargetBuild : Int
  Steps : List GamePatch
deriving DecidableEq, Repr

/-- `gameUpdate.deletePatchFiles` (game.go lines 375-407): removes every
downloaded patch and signature file, ignoring files that do not exist. -/
def deletePatchFiles (steps : List GamePatch) (fs : FS) : FS :=
  steps.foldl
    (fun fs p =>
      let fs1 := if p.patchPath ≠ "" then fsRemove fs p.patchPath else fs
      if p.sigPath ≠ "" then fsRemove fs1 p.sigPath else fs1)
    fs

/-- `gameUpdate.saveSig` (game.go lines 416-428): renames the final step's
downloaded signature file to `<game_dir>/.signature`. -/
def saveSig (steps : List GamePatch) (gameDir : String) (fs : FS) : Except String FS :=
  match steps.getLast? with
  | none => Except.ok fs
  | some lastPatch =>
    if lastPatch.sigPath = "" then Except.ok fs
    else fsRename fs lastPatch.sigPath (gameDir ++ "/.signature")

/-- `gameUpdate.demoteOldVersions` (game.go lines 431-436): only logs; the
state is returned unchanged. -/
def demoteOldVersions (state : appstate.State) : appstate.State := state

structure CommitResult where
  fs : FS
  state : appstate.State
  err : Option String
deriving DecidableEq, Repr

/-- The success tail of `gameUpdate.Apply` (game.go lines 335-357): after all
patch steps succeed it first deletes the downloaded patch/sig files, then
tries `saveSig` (a failure is only logged), then `demoteOldVersions`, then
`SetDependency("game", "update", Dep{Build: TargetBuild, Version: Version})`,
and returns nil. -/
def gameUpdateApplyCommit (u : GameUpdateData) (state : appstate.State) (fs : FS) :
    CommitResult :=
  let fs1 := deletePatchFiles u.Steps fs
  let fs2 :=
    match saveSig u.Steps u.gameDir fs1 with
    | Except.ok f => f
    | Except.error _ => fs1
  let st1 := demoteOldVersions state
  let st2 := st1.SetDependency "game" "update"
    (some { Version := u.Version, Build := u.TargetBuild, BuildID := 0,
            Hash := "", Path := "", SigDir := "", SigFile := "" })
  { fs := fs2, state := st2, err := none }

/-- `CheckAllUpdates` (knownpath.go lines 292-329), with the three component
checks supplied as their results: each check either fails or yields an
optional update.  The launcher check is consulted first; when it yields an
update the function returns at once with only that update. -/
def CheckAllUpdates {ε α : Type} (launcherRes javaRes gameRes : Except ε (Option α)) :
    Except ε (List α) :=
  match launcherRes with
  | Except.error e => Except.error e
  | Except.ok (some u) => Except.ok [u]
  | Except.ok none =>
    match javaRes with
    | Except.error e => Except.error e
    | Except.ok jOpt =>
      match gameRes with
      | Except.error e => Except.error e
      | Except.ok gOpt =>
        Except.ok ((match jOpt with | some j => [j] | none => []) ++
                   (match gOpt with | some g => [g] | none => []))

end pkg

/-! ## internal/download progress reporter (knownpath.go lines 169-266)

Go float64 arithmetic on progress values is embedded over ℚ; the byte and
speed counters are Go int64, embedded as Int. -/

namespace download

/-- `shouldReportProgress` (knownpath.go lines 172-183). -/
def shouldReportProgress (lastProgress currentProgress : ℚ) : Bool :=
  if currentProgress < 1 / 100 then true
  else if 99 / 100 ≤ currentProgress then true
  else decide (1 / 100 ≤ currentProgress - lastProgress)

structure ReporterCfg where
  totalBytes : Int
  progressScale : ℚ
  progressOffset : ℚ
deriving Repr

structure ReporterState where
  lastProgress : ℚ
  lastSpeed : Int
deriving DecidableEq, Repr

/-- The scaled progress computed by the `ReporterWithTotal` closure
(knownpath.go lines 225-242). -/
def scaledProgress (cfg : ReporterCfg) (bytesDownloaded : Int) : ℚ :=
  let progress : ℚ :=
    if cfg.totalBytes > 0 then
      (((if bytesDownloaded > cfg.totalBytes then cfg.totalBytes else bytesDownloaded) : ℚ) /
        (cfg.totalBytes : ℚ))
    else 0
  let progress := if cfg.progressScale > 0 then progress * cfg.progressScale else progress
  cfg.progressOffset + progress

/-- One raw byte-count update fed to the `ReporterWithTotal` closure
(knownpath.go lines 225-265).  Returns the new throttle state and whether the
callback was invoked. -/
def reporterStep (cfg : ReporterCfg) (st : ReporterState) (bytesDownloaded speed : Int) :
    ReporterState × Bool :=
  let finalProgress := scaledProgress cfg bytesDownloaded
  if shouldReportProgress st.lastProgress finalProgress = false ∧ speed = st.lastSpeed then
    (st, false)
  else
    (⟨finalProgress, speed⟩, true)

/-- One fold step of feeding a raw update to the reporter while counting
callback invocations. -/
def reporterFold (cfg : ReporterCfg) (acc : ReporterState × Nat) (upd : Int × Int) :
    ReporterState × Nat :=
  let r := reporterStep cfg acc.1 upd.1 upd.2
  (r.1, if r.2 then acc.2 + 1 else acc.2)

/-- Feed a list of raw `(bytesDownloaded, speed)` updates to the reporter,
counting callback invocations.  The closure state starts at Go zero values. -/
def reporterRun (cfg : ReporterCfg) (updates : List (Int × Int)) : ReporterState × Nat :=
  updates.foldl (reporterFold cfg) (⟨0, 0⟩, 0)

end download

/-! ## internal/net (spec-modelled), internal/verget/manifest.go,
internal/account/pull.go -/

inductive NetMode
  | online
  | offline
deriving DecidableEq, Repr

namespace net

/-- Modelled from the spec: the `net` package is not among the sources (only
its callers are).  Per §4.8, "An `OfflineError` is a sentinel: any fetch in
the Manifest Cache or Account subsystem must check mode first and fail fast
with it when offline" — `OfflineError()` returns the sentinel when the
process-wide mode is Offline and nil otherwise. -/
def OfflineError (mode : NetMode) : Option String :=
  if mode = NetMode.offline then some "offline" else none

end net

namespace verget

structure Release where
  URL : String
  Checksum : String
  Size : Int
deriving DecidableEq, Repr

structure Manifest where
  Version : String
  DownloadURL : List (String × List (String × Release))
deriving DecidableEq, Repr

/-- `GetManifest` (manifest.go lines 144-158): checks the offline sentinel
first, then performs the HTTP fetch.  The fetch is supplied as its result;
the Bool of the pair records whether the fetch was consulted at all. -/
def GetManifest (mode : NetMode) (fetchResult : Except String Manifest) :
    Except String Manifest × Bool :=
  match net.OfflineError mode with
  | some e => (Except.error e, false)
  | none =>
    match fetchResult with
    | Except.error e => (Except.error ("failed to fetch manifest: " ++ e), true)
    | Except.ok m => (Except.ok m, true)

end verget

namespace account

structure Profile where
  Name : String
  UUID : String
  Entitlements : List String
deriving DecidableEq, Repr

structure Patchline where
  Name : String
  Version : Int
deriving DecidableEq, Repr

/-- The fields of `Account` that `Refresh` reads or writes.  `LastRefresh`
is a timestamp, embedded as Int. -/
structure Account where
  Profiles : List Profile
  Patchlines : List (String × Patchline)
  EULAAcceptedAt : Option Int
  LastRefresh : Int
deriving DecidableEq, Repr

/-- The launcher-data API response (pull.go lines 18-27). -/
structure LauncherData where
  Owner : String
  Profiles : List Profile
  Patchlines : List (String × Patchline)
  EULAAcceptedAt : Option Int
deriving DecidableEq, Repr

/-- `Account.Refresh` (pull.go lines 35-66): checks the offline sentinel
first, performs the fetch, and mutates the account only when the response
carries at least one profile.  Returns the Go error (`none` = nil), the
resulting account value, and whether the fetch was consulted. -/
def Refresh (mode : NetMode) (fetchResult : Except String LauncherData)
    (a : Account) (now : Int) : Option String × Account × Bool :=
  match net.OfflineError mode with
  | some e => (some e, a, false)
  | none =>
    match fetchResult with
    | Except.error e => (some ("error fetching account launcher data: " ++ e), a, true)
    | Except.ok data =>
      if data.Profiles.length = 0 then
        (none, a, true)
      else
        (none,
         { a with Profiles := data.Profiles, Patchlines := data.Patchlines,
                  EULAAcceptedAt := data.EULAAcceptedAt, LastRefresh := now },
         true)

end account

/-! ## internal/oauth/loopback.go: the callback handler -/

namespace oauth

/-- `stateData` (loopback.go lines 43-46). -/
structure StateData where
  State : String
  Verifier : String
deriving DecidableEq, Repr

/-- The query parameters `handleCallback` reads; a missing parameter is the
empty string, as with Go's `Query().Get`. -/
structure CallbackQuery where
  state : String
  error : String
  errorDescription : String
  code : String
deriving DecidableEq, Repr

/-- `result` (loopback.go lines 53-56): at most one of token and error. -/
structure LoopbackResult where
  Token : Option String
  Err : Option String
deriving DecidableEq, Repr

/-- What one invocation of `handleCallback` does: the HTTP status written to
the browser, the value sent to the result channel (if any), and whether a
token exchange was started. -/
structure CallbackOutcome where
  status : Nat
  sent : Option LoopbackResult
  exchangeStarted : Bool
deriving DecidableEq, Repr

/-- `Loopback.handleCallback` (loopback.go lines 185-234): 400 when no login
is in progress; 400 plus an error result on a state mismatch; then the OAuth
error and missing-code branches; otherwise 200 and a spawned token
exchange. -/
def handleCallback (attempt : Option StateData) (q : CallbackQuery) : CallbackOutcome :=
  match attempt with
  | none => { status := 400, sent := none, exchangeStarted := false }
  | some sd =>
    if q.state ≠ sd.State then
      { status := 400,
        sent := some { Token := none, Err := some "invalid state parameter" },
        exchangeStarted := false }
    else if q.error ≠ "" then
      { status := 400,
        sent := some { Token := none,
                       Err := some ("authorization error: " ++ q.error ++ " - " ++ q.errorDescription) },
        exchangeStarted := false }
    else if q.code = "" then
      { status := 400,
        sent := some { Token := none, Err := some "no authorization code received" },
        exchangeStarted := false }
    else
      { status := 200, sent := none, exchangeStarted := true }

end oauth

/-! ## Helper lemmas -/

theorem alookup_ainsert {α : Type} (m : List (String × α)) (k q : String) (v : α) :
    alookup (ainsert m k v) q = if q = k then some v else alookup m q := by
  induction m with
  | nil =>
    by_cases h : q = k
    · simp [ainsert, alookup, h]
    · simp [ainsert, alookup, h, Ne.symm h]
  | cons kv rest ih =>
    obtain ⟨k0, v0⟩ := kv
    simp only [ainsert]
    by_cases h0 : k0 = k
    · subst h0
      by_cases h : q = k0
      · subst h; simp [alookup]
      · simp [alookup, h, Ne.symm h]
    · simp only [if_neg h0]
      by_cases h1 : k0 = q
      · subst h1
        simp [alookup, h0]
      · simp [alookup, h1, ih]

theorem shouldReportProgress_true_iff (last cur : ℚ) :
    download.shouldReportProgress last cur = true ↔
      (cur < 1 / 100 ∨ 99 / 100 ≤ cur ∨ 1 / 100 ≤ cur - last) := by
  unfold download.shouldReportProgress
  split_ifs with h1 h2
  · exact ⟨fun _ => Or.inl h1, fun _ => rfl⟩
  · exact ⟨fun _ => Or.inr (Or.inl h2), fun _ => rfl⟩
  · constructor
    · intro hd
      exact Or.inr (Or.inr (of_decide_eq_true hd))
    · intro hor
      rcases hor with h | h | h
      · exact absurd h h1
      · exact absurd h h2
      · exact decide_eq_true h


theorem reporterFold_count_of_small (cfg : download.ReporterCfg) :
    ∀ (updates : List (Int × Int)) (st : download.ReporterState) (n : Nat),
      (∀ u ∈ updates, download.scaledProgress cfg u.1 < 1 / 100) →
      (updates.foldl (download.reporterFold cfg) (st, n)).2 = n + updates.length := by
  intro updates
  induction updates with
  | nil => intro st n h; simp
  | cons u rest ih =>
    intro st n h
    have hu : download.scaledProgress cfg u.1 < 1 / 100 := h u (List.mem_cons_self u rest)
    have hrep : download.shouldReportProgress st.lastProgress
        (download.scaledProgress cfg u.1) = true := by
      unfold download.shouldReportProgress
      rw [if_pos hu]
    have hstep : download.reporterStep cfg st u.1 u.2
        = (⟨download.scaledProgress cfg u.1, u.2⟩, true) := by
      unfold download.reporterStep
      dsimp only
      rw [if_neg]
      rintro ⟨hc1, -⟩
      rw [hrep] at hc1
      cases hc1
    have hfold : download.reporterFold cfg (st, n) u
        = (⟨download.scaledProgress cfg u.1, u.2⟩, n + 1) := by
      unfold download.reporterFold
      dsimp only
      rw [hstep]
      simp
    rw [List.foldl_cons, hfold,
        ih _ (n + 1) (fun v hv => h v (List.mem_cons_of_mem u hv))]
    simp only [List.length_cons]
    omega

/-! ## Claims -/

/-- Claim C2 counterexample: `SetDependency` with a non-null dep does not
replace the inner map.  Starting from a state whose `pkg` entry holds a dep
at version `1.0`, after `SetDependency("pkg", "cause", dep@2.0)` the old
entry `1.0` is still present, contradicting "the inner map is exactly the
singleton {d.Version: d}". -/
theorem C2_counterexample :
    alookup
      (appstate.innerDeps
        ((({ Channel := "release", IsNew := false, OfflineReady := false, DataDir := "",
             Dependencies :=
               [("pkg", [("1.0", { Version := "1.0", Build := 1, BuildID := 0, Hash := "",
                                   Path := "", SigDir := "", SigFile := "" })])] } :
            appstate.State).SetDependency "pkg" "cause"
            (some { Version := "2.0", Build := 2, BuildID := 0, Hash := "", Path := "",
                    SigDir := "", SigFile := "" })))
        "pkg") "1.0"
      = some { Version := "1.0", Build := 1, BuildID := 0, Hash := "", Path := "",
               SigDir := "", SigFile := "" } := by
  decide

/-- Claim C2 (amended): after `SetDependency(p, c, d)` with non-null `d` the
inner map for `p` maps `d.Version` to `d` and retains every previously
present entry under any other version; package ids other than `p` are
untouched.  (The source inserts `deps[dep.Version] = *dep` into the existing
inner map; it does not clear it.) -/
theorem C2_set_dependency_inserts (s : appstate.State) (p cause : String)
    (d : appstate.Dep) (q v : String) :
    alookup (appstate.innerDeps (s.SetDependency p cause (some d)) p) v
      = (if v = d.Version then some d else alookup (appstate.innerDeps s p) v) ∧
    alookup ((s.SetDependency p cause (some d)).Dependencies) q
      = (if q = p then some (ainsert (appstate.innerDeps s p) d.Version d)
         else alookup s.Dependencies q) := by
  constructor
  · simp [appstate.State.SetDependency, appstate.innerDeps, alookup_ainsert]
  · simp [appstate.State.SetDependency, appstate.innerDeps, alookup_ainsert]

/-- Claim C4 counterexample: starting from a channel state that already holds
a `game` dependency at version `0.9`, the success tail of `gameUpdate.Apply`
(target version `1.0`, build 42) leaves two entries under
`dependencies["game"]` — `demoteOldVersions` is a no-op and `SetDependency`
only inserts — contradicting "exactly one Dep". -/
theorem C4_counterexample :
    (appstate.innerDeps
      (pkg.gameUpdateApplyCommit
        { gameDir := "/game", Version := "1.0", TargetBuild := 42, Steps := [] }
        { Channel := "release", IsNew := false, OfflineReady := false, DataDir := "",
          Dependencies :=
            [("game", [("0.9", { Version := "0.9", Build := 40, BuildID := 0, Hash := "",
                                 Path := "", SigDir := "", SigFile := "" })])] }
        []).state
      "game").length = 2 := by
  decide

/-- Claim C4 (amended): after the success tail of `gameUpdate.Apply`,
`dependencies["game"]` maps the target version to
`Dep{Version: target version, Build: target build}`, and every entry
previously present under a different version is retained unchanged (so the
inner map is a singleton only when no other version was installed before). -/
theorem C4_game_dep_after_commit (u : pkg.GameUpdateData) (st : appstate.State)
    (fs : pkg.FS) (v : String) :
    alookup (appstate.innerDeps (pkg.gameUpdateApplyCommit u st fs).state "game") v
      = (if v = u.Version then
           some { Version := u.Version, Build := u.TargetBuild, BuildID := 0, Hash := "",
                  Path := "", SigDir := "", SigFile := "" }
         else alookup (appstate.innerDeps st "game") v) := by
  simp [pkg.gameUpdateApplyCommit, pkg.demoteOldVersions, appstate.State.SetDependency,
        appstate.innerDeps, alookup_ainsert]

/-- Claim C5: when the launcher check yields an available update `u`,
`CheckAllUpdates` returns exactly `[u]`, whatever the JRE and game checks
would have produced (they are not consulted: the result is independent of
both). -/
theorem C5_launcher_update_preempts {ε α : Type} (u : α)
    (javaRes gameRes : Except ε (Option α)) :
    pkg.CheckAllUpdates (Except.ok (some u)) javaRes gameRes = Except.ok [u] :=
  rfl

/-- Claim C8: in Offline mode both `GetManifest` and `Account.Refresh` return
the offline sentinel as the very first step, and the network fetch is never
consulted (the consulted flag is `false`, independent of the fetch result),
and the account is untouched. -/
theorem C8_offline_short_circuit (fetchM : Except String verget.Manifest)
    (fetchA : Except String account.LauncherData) (a : account.Account) (now : Int) :
    verget.GetManifest NetMode.offline fetchM = (Except.error "offline", false) ∧
    account.Refresh NetMode.offline fetchA a now = (some "offline", a, false) :=
  ⟨rfl, rfl⟩

/-- Claim C9: a callback whose `state` query parameter differs from the
stored attempt's state is rejected with HTTP 400; no token exchange is
started and no token is delivered to the result channel (the value sent, if
any, carries no token).  The same holds when no attempt is in progress
(`handleCallback none`). -/
theorem C9_callback_state_mismatch_rejected (sd : oauth.StateData)
    (q : oauth.CallbackQuery) (h : q.state ≠ sd.State) :
    ((oauth.handleCallback (some sd) q).status = 400 ∧
     (oauth.handleCallback (some sd) q).exchangeStarted = false ∧
     ∀ r, (oauth.handleCallback (some sd) q).sent = some r → r.Token = none) ∧
    ((oauth.handleCallback none q).status = 400 ∧
     (oauth.handleCallback none q).exchangeStarted = false ∧
     (oauth.handleCallback none q).sent = none) := by
  constructor
  · simp only [oauth.handleCallback]
    rw [if_pos h]
    refine ⟨rfl, rfl, ?_⟩
    intro r hr
    cases hr
    rfl
  · exact ⟨rfl, rfl, rfl⟩

/-- Witness for C9 at a concrete mismatching callback. -/
theorem C9_witness :
    (("bad" : String) ≠ "good") ∧
    (((oauth.handleCallback (some { State := "good", Verifier := "ver" })
        { state := "bad", error := "", errorDescription := "", code := "c" }).status = 400 ∧
      (oauth.handleCallback (some { State := "good", Verifier := "ver" })
        { state := "bad", error := "", errorDescription := "", code := "c" }).exchangeStarted = false ∧
      ∀ r, (oauth.handleCallback (some { State := "good", Verifier := "ver" })
        { state := "bad", error := "", errorDescription := "", code := "c" }).sent = some r →
          r.Token = none) ∧
     ((oauth.handleCallback none
        { state := "bad", error := "", errorDescription := "", code := "c" }).status = 400 ∧
      (oauth.handleCallback none
        { state := "bad", error := "", errorDescription := "", code := "c" }).exchangeStarted = false ∧
      (oauth.handleCallback none
        { state := "bad", error := "", errorDescription := "", code := "c" }).sent = none)) :=
  ⟨by decide,
   C9_callback_state_mismatch_rejected { State := "good", Verifier := "ver" }
     { state := "bad", error := "", errorDescription := "", code := "c" } (by decide)⟩

/-- Claim C10: when the server response carries an empty profile list,
`Account.Refresh` returns success (nil error) and leaves the account value —
including Profiles, Patchlines, EULAAcceptedAt and LastRefresh — entirely
unchanged; the fetch was performed but nothing is written back. -/
theorem C10_refresh_empty_profiles (a : account.Account) (now : Int)
    (data : account.LauncherData) (h : data.Profiles = []) :
    account.Refresh NetMode.online (Except.ok data) a now = (none, a, true) := by
  simp [account.Refresh, net.OfflineError, h]

/-- Witness for C10 at a concrete empty response. -/
theorem C10_witness :
    (({ Owner := "o", Profiles := [], Patchlines := [],
        EULAAcceptedAt := none } : account.LauncherData).Profiles = []) ∧
    account.Refresh NetMode.online
      (Except.ok { Owner := "o", Profiles := [], Patchlines := [], EULAAcceptedAt := none })
      { Profiles := [], Patchlines := [], EULAAcceptedAt := none, LastRefresh := 7 } 99
      = (none,
         { Profiles := [], Patchlines := [], EULAAcceptedAt := none, LastRefresh := 7 },
         true) :=
  ⟨rfl,
   C10_refresh_empty_profiles
     { Profiles := [], Patchlines := [], EULAAcceptedAt := none, LastRefresh := 7 } 99
     { Owner := "o", Profiles := [], Patchlines := [], EULAAcceptedAt := none } rfl⟩

/-- Claim C3 evidence (code bug): in the success tail of `gameUpdate.Apply`
the downloaded patch/sig scratch files are removed (line 336) before
`saveSig` runs (line 339), so the rename source is already gone; the
resulting error is only logged (line 340) and `Apply` still returns nil.
With a one-step patch set whose downloaded files exist, the commit reports
success yet `<game_dir>/.signature` does not exist afterwards. -/
theorem C3_signature_not_saved :
    (pkg.gameUpdateApplyCommit
      { gameDir := "/game", Version := "1.0", TargetBuild := 41,
        Steps := [{ FromBuild := 40, ToBuild := 41, PatchURL := "pu", PatchSize := 10,
                    SignatureURL := "su", SigSize := 2,
                    patchPath := "/cache/p1", sigPath := "/cache/s1" }] }
      { Channel := "release", IsNew := false, OfflineReady := false, DataDir := "",
        Dependencies := [] }
      [("/cache/p1", [1]), ("/cache/s1", [2, 3])]).err = none ∧
    alookup
      (pkg.gameUpdateApplyCommit
        { gameDir := "/game", Version := "1.0", TargetBuild := 41,
          Steps := [{ FromBuild := 40, ToBuild := 41, PatchURL := "pu", PatchSize := 10,
                      SignatureURL := "su", SigSize := 2,
                      patchPath := "/cache/p1", sigPath := "/cache/s1" }] }
        { Channel := "release", IsNew := false, OfflineReady := false, DataDir := "",
          Dependencies := [] }
        [("/cache/p1", [1]), ("/cache/s1", [2, 3])]).fs
      "/game/.signature" = none := by
  decide

/-- Claim C6 counterexample: the callback-count bound fails.  With
`totalBytes = 100000`, scale 1, offset 0, feeding 106 raw updates of
`(0 bytes, speed 0)` — each with scaled progress 0 < 0.01 — makes the
callback fire 106 > 105 times; in general it fires once per raw update while
progress stays below the 1% mark, unbounded in the number of updates. -/
theorem C6_counterexample :
    (download.reporterRun { totalBytes := 100000, progressScale := 1, progressOffset := 0 }
      (List.replicate 106 ((0 : Int), (0 : Int)))).2 = 106 := by
  unfold download.reporterRun
  rw [reporterFold_count_of_small]
  · simp
  · intro u hu
    rw [List.eq_of_mem_replicate hu]
    show download.scaledProgress _ 0 < 1 / 100
    norm_num [download.scaledProgress]

/-- Claim C6 (amended): a report is emitted exactly when the scaled progress
is below 0.01, or at/above 0.99, or has advanced by at least 0.01 since the
last report, or the speed differs from the last reported speed.  (The ≤ 105
bound of the claim does not hold: each of those conditions fires on every raw
update while it stays true, as the counterexample shows.) -/
theorem C6_report_exact_condition (cfg : download.ReporterCfg)
    (st : download.ReporterState) (bytes speed : Int) :
    (download.reporterStep cfg st bytes speed).2 = true ↔
      (download.scaledProgress cfg bytes < 1 / 100 ∨
       99 / 100 ≤ download.scaledProgress cfg bytes ∨
       1 / 100 ≤ download.scaledProgress cfg bytes - st.lastProgress ∨
       speed ≠ st.lastSpeed) := by
  unfold download.reporterStep
  dsimp only
  split_ifs with h
  · obtain ⟨hrep, hspeed⟩ := h
    have hn : ¬(download.scaledProgress cfg bytes < 1 / 100 ∨
        99 / 100 ≤ download.scaledProgress cfg bytes ∨
        1 / 100 ≤ download.scaledProgress cfg bytes - st.lastProgress) := by
      rw [← shouldReportProgress_true_iff]
      simp [hrep]
    simp only [Bool.false_eq_true, false_iff]
    intro hor
    rcases hor with h1 | h1 | h1 | h1
    · exact hn (Or.inl h1)
    · exact hn (Or.inr (Or.inl h1))
    · exact hn (Or.inr (Or.inr h1))
    · exact h1 hspeed
  · by_cases hs : speed = st.lastSpeed
    · have hrep : download.shouldReportProgress st.lastProgress
          (download.scaledProgress cfg bytes) = true := by
        cases hb : download.shouldReportProgress st.lastProgress
            (download.scaledProgress cfg bytes)
        · exact absurd ⟨hb, hs⟩ h
        · rfl
      have hor := (shouldReportProgress_true_iff st.lastProgress
        (download.scaledProgress cfg bytes)).mp hrep
      rcases hor with h1 | h1 | h1
      · exact iff_of_true rfl (Or.inl h1)
      · exact iff_of_true rfl (Or.inr (Or.inl h1))
      · exact iff_of_true rfl (Or.inr (Or.inr (Or.inl h1)))
    · exact iff_of_true rfl (Or.inr (Or.inr (Or.inr hs)))

/-- Claim C7 counterexample: `validate` accepts a pair of paths that merely
share the string prefix `/tmp` without being inside the temp directory.
With a matching signature and both paths under `/tmpevil/`, `validate`
returns success, while the claim requires an error for paths not entirely
under the OS temp directory. -/
theorem C7_counterexample :
    selfupdate.validate [] "/tmpevil/src" "/tmpevil/dst"
      (crypto.HMAC (utf8Bytes "/tmpevil/dst") []) = none := by
  unfold selfupdate.validate
  rw [if_neg (fun h => h rfl)]
  decide

/-- Claim C7 (amended): `validate` succeeds exactly when the signature equals
`HMAC_SHA256_hex` of the destination path bytes under the key AND both paths
have the literal string prefix `/tmp` (a `strings.HasPrefix` check against
the hardcoded `/tmp`, not containment in the OS temp directory); it returns
an error in every other case. -/
theorem C7_validate_success_iff (key : List Nat) (src dst sig : String) :
    selfupdate.validate key src dst sig = none ↔
      (crypto.HMAC (utf8Bytes dst) key = sig ∧
       strHasPre src "/tmp" = true ∧ strHasPre dst "/tmp" = true) := by
  unfold selfupdate.validate
  split_ifs with h1 h2
  · constructor
    · intro h; cases h
    · rintro ⟨he, -, -⟩; exact absurd he h1
  · have h2x : strHasPre src "/tmp" = true ∧ strHasPre dst "/tmp" = true := by
      simpa using h2
    exact iff_of_true rfl ⟨not_ne_iff.mp h1, h2x.1, h2x.2⟩
  · constructor
    · intro h; cases h
    · rintro ⟨-, hs, hd⟩
      exact h2 (by simp [hs, hd])

set_option maxRecDepth 40000 in
/-- Claim C1 evidence (code bug): `launcherUpdate.selfUpdate` passes as
`-sig` the HMAC of the decimal PID string (part_005 line 162), not of the
destination executable path; the helper's `validate` recomputes the HMAC
over the destination path (part_003 lines 232-237), so a legitimate handoff
is always rejected.  Concretely, with the empty key, PID 5 and destination
`/tmp/hytale-launcher`, the last argv element is `HMAC("5", key)` and
`validate` rejects it with "invalid update signature". -/
theorem C1_selfupdate_sig_mismatch :
    (pkg.selfUpdateArgs [] 5 "/tmp/hytale-new" "/tmp/hytale-launcher"
        "release" "1.2.3").getLast?
      = some (crypto.HMAC (utf8Bytes "5") []) ∧
    selfupdate.validate [] "/tmp/hytale-new" "/tmp/hytale-launcher"
        (pkg.selfUpdateSig [] 5)
      = some "invalid update signature" := by
  refine ⟨rfl, ?_⟩
  have hne : crypto.HMAC (utf8Bytes "/tmp/hytale-launcher") [] ≠ pkg.selfUpdateSig [] 5 := by
    decide
  unfold selfupdate.validate
  rw [if_pos hne]
